import Mathlib

/-!
Shallow embedding of the wake-up-light firmware (src/src/main.cpp, the final
three-LED ESP32 revision, which the claims cite by line number).

Modelling conventions:
- C machine integers become `Int`; the conversion `(uint8_t)x` at the
  `Rtc.SetMemory` call sites becomes `x % 256`, and `Rtc.GetMemory`, whose
  return type is `uint8_t`, reads a slot as `slot % 256`; the `uint32_t`
  parameter of `setDateTimeFromUnixEpoch` becomes `% 2 ^ 32`.
- The DS1302 RTC battery-backed memory is five byte slots (offsets 0..4).
- The float arithmetic of the ramp engine (`pow(progress, 1.8)` and the
  truncating `(int)` cast of a non-negative value) is idealised over `ℝ`
  with `Real.rpow` and `Int.floor`.
- The global `config` cache, the RTC memory and the RTC clock together form
  a `BoardState`; `updateBoardState` is modelled as a function of the WiFi
  connection outcome and the two HTTP fetch outcomes.
-/

namespace WakeUpLight

/-- The `SunriseConfig` struct of main.cpp: five `int` fields. -/
structure SunriseConfig where
  hour : Int
  minute : Int
  durationMinutes : Int
  keepLightOnMinutes : Int
  utcOffset : Int
deriving DecidableEq

/-- The five DS1302 RTC memory byte slots the firmware uses
(`Rtc.SetMemory` / `Rtc.GetMemory` at offsets 0..4).  Slots hold arbitrary
integers in the model; every read applies `% 256` because `GetMemory`
returns a `uint8_t`. -/
structure RtcMemory where
  slot0 : Int
  slot1 : Int
  slot2 : Int
  slot3 : Int
  slot4 : Int
deriving DecidableEq

/-- `saveSunriseConfig` (main.cpp lines 436-444), memory effect: writes the
low byte of each field to its slot, unconditionally.  The previous memory
contents are ignored entirely (all five slots are overwritten).  The
assignment to the global `config` cache is modelled at the `BoardState`
level below. -/
def saveSunriseConfig (c : SunriseConfig) (_previous : RtcMemory) : RtcMemory :=
  { slot0 := c.hour % 256
    slot1 := c.minute % 256
    slot2 := c.durationMinutes % 256
    slot3 := c.keepLightOnMinutes % 256
    slot4 := c.utcOffset % 256 }

/-- The five integers `getSunriseConfig` reads back from RTC memory
(each `Rtc.GetMemory` result, a `uint8_t`, assigned to an `int`). -/
def rawConfigOf (m : RtcMemory) : SunriseConfig :=
  ⟨m.slot0 % 256, m.slot1 % 256, m.slot2 % 256, m.slot3 % 256, m.slot4 % 256⟩

/-- `getSunriseConfig` (main.cpp lines 446-463): read the five bytes, and if
any is out of range return the fixed default record `{7, 0, 60, 30, 1}`. -/
def getSunriseConfig (m : RtcMemory) : SunriseConfig :=
  let hour : Int := m.slot0 % 256
  let minute : Int := m.slot1 % 256
  let durationMinutes : Int := m.slot2 % 256
  let keepLightOnMinutes : Int := m.slot3 % 256
  let utcOffset : Int := m.slot4 % 256
  if hour < 0 ∨ hour > 23 ∨ minute < 0 ∨ minute > 59 ∨ durationMinutes < 0 ∨
      durationMinutes > 120 ∨ keepLightOnMinutes < 0 ∨ keepLightOnMinutes > 120 ∨
      utcOffset < -12 ∨ utcOffset > 12 then
    ⟨7, 0, 60, 30, 1⟩
  else
    ⟨hour, minute, durationMinutes, keepLightOnMinutes, utcOffset⟩

/-- The fixed default record of the spec (07:00 trigger, 60-minute ramp,
30-minute hold, +1 offset), the literal returned by `getSunriseConfig`. -/
def defaultConfig : SunriseConfig := ⟨7, 0, 60, 30, 1⟩

/-- The field bounds of spec section 3: hour 0..23, minute 0..59,
duration 0..120, hold 0..120, utcOffset -12..12. -/
def configInBounds (c : SunriseConfig) : Prop :=
  0 ≤ c.hour ∧ c.hour ≤ 23 ∧ 0 ≤ c.minute ∧ c.minute ≤ 59 ∧
    0 ≤ c.durationMinutes ∧ c.durationMinutes ≤ 120 ∧
    0 ≤ c.keepLightOnMinutes ∧ c.keepLightOnMinutes ≤ 120 ∧
    -12 ≤ c.utcOffset ∧ c.utcOffset ≤ 12

instance (c : SunriseConfig) : Decidable (configInBounds c) := by
  unfold configInBounds
  infer_instance

/-- The load path characterised against the spec-level bounds predicate:
the code's rejection condition is exactly the negation of `configInBounds`
on the decoded bytes, and rejection is whole-record. -/
theorem getSunriseConfig_eq (m : RtcMemory) :
    getSunriseConfig m =
      if configInBounds (rawConfigOf m) then rawConfigOf m else defaultConfig := by
  by_cases hb : configInBounds (rawConfigOf m)
  · rw [if_pos hb]
    have hc : ¬ (m.slot0 % 256 < 0 ∨ m.slot0 % 256 > 23 ∨ m.slot1 % 256 < 0 ∨
        m.slot1 % 256 > 59 ∨ m.slot2 % 256 < 0 ∨ m.slot2 % 256 > 120 ∨
        m.slot3 % 256 < 0 ∨ m.slot3 % 256 > 120 ∨ m.slot4 % 256 < -12 ∨
        m.slot4 % 256 > 12) := by
      simp only [configInBounds, rawConfigOf] at hb
      omega
    simp only [getSunriseConfig]
    rw [if_neg hc]
    rfl
  · rw [if_neg hb]
    have hc : m.slot0 % 256 < 0 ∨ m.slot0 % 256 > 23 ∨ m.slot1 % 256 < 0 ∨
        m.slot1 % 256 > 59 ∨ m.slot2 % 256 < 0 ∨ m.slot2 % 256 > 120 ∨
        m.slot3 % 256 < 0 ∨ m.slot3 % 256 > 120 ∨ m.slot4 % 256 < -12 ∨
        m.slot4 % 256 > 12 := by
      simp only [configInBounds, rawConfigOf] at hb
      omega
    simp only [getSunriseConfig]
    rw [if_pos hc]
    rfl

/-- Wall-clock time as read from the RTC in `loop` (hour and minute). -/
structure ClockTime where
  hour : Int
  minute : Int
deriving DecidableEq

/-- The trigger comparison in `loop` (main.cpp line 290):
`now.Hour() + config.utcOffset == config.hour && now.Minute() == config.minute`.
The `uint8_t` hour is promoted to `int`; the sum is NOT reduced modulo 24. -/
def shouldTrigger (now : ClockTime) (c : SunriseConfig) : Bool :=
  now.hour + c.utcOffset == c.hour && now.minute == c.minute

/-- Modelled from the spec (section 4.2): the spec's trigger formula, which
reduces the hour sum modulo 24 before comparing.  Stated only to compare
against the code's `shouldTrigger`. -/
def shouldTriggerSpec (now : ClockTime) (c : SunriseConfig) : Bool :=
  (now.hour + c.utcOffset) % 24 == c.hour && now.minute == c.minute

/-- The board state touched by `updateBoardState`: the five RTC memory
slots, the global `config` cache, and the RTC clock (as a Unix epoch). -/
structure BoardState where
  mem : RtcMemory
  config : SunriseConfig
  clockEpoch : Int
deriving DecidableEq

/-- Full effect of `saveSunriseConfig` (main.cpp lines 436-444): assigns the
global `config` cache and writes the five memory slots. -/
def saveSunriseConfigState (c : SunriseConfig) (st : BoardState) : BoardState :=
  { st with config := c, mem := saveSunriseConfig c st.mem }

/-- `setDateTimeFromUnixEpoch` (main.cpp lines 429-434): sets the RTC clock;
the `uint32_t` parameter type truncates the argument modulo `2 ^ 32`. -/
def setDateTimeFromUnixEpoch (epoch : Int) (st : BoardState) : BoardState :=
  { st with clockEpoch := epoch % 2 ^ 32 }

/-- A fetched HTTP body after `deserializeJson`, whose error result the
firmware ignores: `none` models a payload that is not valid JSON (the
document stays empty), `some f` a parsed object with integer field lookup
`f`. -/
def jsonLookupInt : Option (String → Int) → String → Int
  | none, _ => 0
  | some f, key => f key

/-- Outcome of one `http.GET()`: the response code and the parsed body. -/
structure FetchResult where
  code : Int
  doc : Option (String → Int)

/-- The record built at main.cpp line 355 from the fetched document:
`{doc["sunriseHour"], doc["sunriseMinute"], doc["durationMinutes"],
doc["keepLightOnMinutes"], doc["utcOffset"]}`; a lookup on a failed or
incomplete document yields 0 (ArduinoJson's null-to-int conversion). -/
def decodedSunriseConfig (doc : Option (String → Int)) : SunriseConfig :=
  ⟨jsonLookupInt doc ("sunriseHour"), jsonLookupInt doc ("sunriseMinute"),
    jsonLookupInt doc ("durationMinutes"), jsonLookupInt doc ("keepLightOnMinutes"),
    jsonLookupInt doc ("utcOffset")⟩

/-- `updateBoardState` (main.cpp lines 320-387), modelled as a function of
the WiFi connection outcome and the two fetch outcomes.  On connection
failure it returns early; otherwise: if the config fetch's response code is
positive it saves the decoded record (the `deserializeJson` error is never
checked), then, independently, if the time fetch's response code is
positive it sets the clock from `doc["unixtime"]`. -/
def updateBoardState (connected : Bool) (cfgFetch timeFetch : FetchResult)
    (st : BoardState) : BoardState :=
  if connected then
    let st1 :=
      if 0 < cfgFetch.code then
        saveSunriseConfigState (decodedSunriseConfig cfgFetch.doc) st
      else st
    if 0 < timeFetch.code then
      setDateTimeFromUnixEpoch (jsonLookupInt timeFetch.doc ("unixtime")) st1
    else st1
  else st

/-- C1, counterexample: at `nowUtc = 23:00` with a valid configuration
`triggerHour = 0, utcOffset = +1`, the spec formula (hour sum reduced mod
24) matches but the code's comparison in `loop` does not fire: the claimed
equivalence is false at this input. -/
theorem c1_counterexample :
    configInBounds ⟨0, 0, 60, 30, 1⟩ ∧
      ¬ (shouldTrigger ⟨23, 0⟩ ⟨0, 0, 60, 30, 1⟩ =
          shouldTriggerSpec ⟨23, 0⟩ ⟨0, 0, 60, 30, 1⟩) := by
  decide

/-- C1 (amended): for every valid configuration, the trigger evaluation in
`loop` returns true exactly when the spec formula
`(nowUtc.hour + utcOffset) mod 24 == triggerHour && nowUtc.minute ==
triggerMinute` holds AND the unreduced hour sum already lies in 0..23: the
code compares the raw sum without reducing it modulo 24, so trigger hours
reachable only through wraparound never fire. -/
theorem c1_trigger_characterization (now : ClockTime) (c : SunriseConfig)
    (h : configInBounds c) :
    shouldTrigger now c = true ↔
      (shouldTriggerSpec now c = true ∧
        0 ≤ now.hour + c.utcOffset ∧ now.hour + c.utcOffset < 24) := by
  obtain ⟨nh, nm⟩ := now
  obtain ⟨ch, cm, cd, ck, cu⟩ := c
  simp only [configInBounds] at h
  simp only [shouldTrigger, shouldTriggerSpec, Bool.and_eq_true, beq_iff_eq]
  omega

/-- Witness for the amended C1 at the spec's own example input
(`nowUtc = 6:00`, `utcOffset = +1`, trigger 07:00). -/
theorem c1_witness :
    configInBounds ⟨7, 0, 60, 30, 1⟩ ∧
      (shouldTrigger ⟨6, 0⟩ ⟨7, 0, 60, 30, 1⟩ = true ↔
        (shouldTriggerSpec ⟨6, 0⟩ ⟨7, 0, 60, 30, 1⟩ = true ∧
          0 ≤ (6 : Int) + 1 ∧ (6 : Int) + 1 < 24)) :=
  ⟨by decide, c1_trigger_characterization ⟨6, 0⟩ ⟨7, 0, 60, 30, 1⟩ (by decide)⟩

/-- C2, counterexample: the valid record with `utcOffset = -1` does not
round-trip: `(uint8_t)(-1)` stores 255, which fails the load bound check,
so load returns the default record instead of the saved one. -/
theorem c2_counterexample :
    configInBounds ⟨7, 0, 60, 30, -1⟩ ∧
      getSunriseConfig (saveSunriseConfig ⟨7, 0, 60, 30, -1⟩ ⟨0, 0, 0, 0, 0⟩) ≠
        ⟨7, 0, 60, 30, -1⟩ := by
  decide

/-- C2 (amended): save followed by load round-trips for every record whose
five fields lie within the section-3 bounds AND whose utcOffset is
non-negative; negative offsets are excluded because their byte encoding
decodes to 244..255 and is rejected at load. -/
theorem c2_roundtrip (c : SunriseConfig) (m : RtcMemory)
    (h : configInBounds c) (hnn : 0 ≤ c.utcOffset) :
    getSunriseConfig (saveSunriseConfig c m) = c := by
  obtain ⟨ch, cm, cd, ck, cu⟩ := c
  simp only [configInBounds] at h
  replace hnn : 0 ≤ cu := hnn
  rw [getSunriseConfig_eq]
  have hr : rawConfigOf (saveSunriseConfig ⟨ch, cm, cd, ck, cu⟩ m) =
      ⟨ch, cm, cd, ck, cu⟩ := by
    simp only [rawConfigOf, saveSunriseConfig, SunriseConfig.mk.injEq]
    refine ⟨?_, ?_, ?_, ?_, ?_⟩ <;> omega
  rw [hr]
  rw [if_pos]
  simp only [configInBounds]
  omega

/-- Witness for the amended C2 on a concrete valid record with a positive
offset, saved over arbitrary previous memory contents. -/
theorem c2_witness :
    configInBounds ⟨8, 30, 90, 10, 2⟩ ∧ 0 ≤ (2 : Int) ∧
      getSunriseConfig (saveSunriseConfig ⟨8, 30, 90, 10, 2⟩ ⟨1, 2, 3, 4, 5⟩) =
        ⟨8, 30, 90, 10, 2⟩ :=
  ⟨by decide, by decide,
    c2_roundtrip ⟨8, 30, 90, 10, 2⟩ ⟨1, 2, 3, 4, 5⟩ (by decide) (by decide)⟩

/-- C3, counterexample: with the valid record `{8,30,90,10,2}` persisted,
saving the out-of-range record `{200,0,60,30,1}` does change the byte slots,
and the subsequent load returns the fixed default record, not the
previously persisted one. -/
theorem c3_counterexample :
    saveSunriseConfig ⟨200, 0, 60, 30, 1⟩ ⟨8, 30, 90, 10, 2⟩ ≠ ⟨8, 30, 90, 10, 2⟩ ∧
      getSunriseConfig (saveSunriseConfig ⟨200, 0, 60, 30, 1⟩ ⟨8, 30, 90, 10, 2⟩) =
        defaultConfig ∧
      defaultConfig ≠ ⟨8, 30, 90, 10, 2⟩ := by
  decide

/-- C3 (amended): `saveSunriseConfig` performs no validation and
unconditionally overwrites all five byte slots, so the persisted state
after a save — and hence what a subsequent load observes — is independent
of the previously persisted record; the subsequent load returns the record
decoded from the newly written bytes, or the fixed default when those bytes
fail the bounds check, never the previously persisted record. -/
theorem c3_save_overwrites (c : SunriseConfig) (m m' : RtcMemory) :
    saveSunriseConfig c m = saveSunriseConfig c m' ∧
      getSunriseConfig (saveSunriseConfig c m) =
        (if configInBounds (rawConfigOf (saveSunriseConfig c m)) then
          rawConfigOf (saveSunriseConfig c m)
        else defaultConfig) :=
  ⟨rfl, getSunriseConfig_eq _⟩

/-- C4, counterexample: a config fetch with a positive response code but a
body that is not valid JSON (the time fetch failing) DOES cause a save: the
memory slots and cached config are overwritten with the all-zero record. -/
theorem c4_counterexample :
    (updateBoardState true ⟨200, none⟩ ⟨-1, none⟩
        ⟨⟨8, 30, 90, 10, 2⟩, ⟨8, 30, 90, 10, 2⟩, 5⟩).mem ≠
      (⟨8, 30, 90, 10, 2⟩ : RtcMemory) ∧
      (updateBoardState true ⟨200, none⟩ ⟨-1, none⟩
          ⟨⟨8, 30, 90, 10, 2⟩, ⟨8, 30, 90, 10, 2⟩, 5⟩).config =
        ⟨0, 0, 0, 0, 0⟩ := by
  decide

/-- C4 (amended): when the fetched body is not valid JSON, the persisted
configuration is left untouched only on transport failure
(`httpResponseCode <= 0`); on transport success the `deserializeJson` error
is ignored and a save is still performed, persisting the all-zero record
(every lookup on the failed document yields 0) over the previous
configuration slots and cache. -/
theorem c4_invalid_json (code : Int) (timeFetch : FetchResult) (st : BoardState) :
    (updateBoardState true ⟨code, none⟩ timeFetch st).config =
        (if 0 < code then ⟨0, 0, 0, 0, 0⟩ else st.config) ∧
      (updateBoardState true ⟨code, none⟩ timeFetch st).mem =
        (if 0 < code then saveSunriseConfig ⟨0, 0, 0, 0, 0⟩ st.mem else st.mem) := by
  by_cases h1 : 0 < code <;> by_cases h2 : 0 < timeFetch.code <;>
    simp [updateBoardState, saveSunriseConfigState, setDateTimeFromUnixEpoch,
      decodedSunriseConfig, jsonLookupInt, h1, h2]

/-- C5 (confirmed): every memory pattern whose decoded fields violate at
least one section-3 bound loads as exactly the fixed default record
`{7, 0, 60, 30, 1}` (whole-record rejection), and every loaded record —
default or decoded — satisfies all the bounds. -/
theorem c5_invalid_load_defaults (m : RtcMemory)
    (h : ¬ configInBounds (rawConfigOf m)) :
    getSunriseConfig m = defaultConfig ∧ configInBounds (getSunriseConfig m) := by
  have he := getSunriseConfig_eq m
  rw [if_neg h] at he
  refine ⟨he, ?_⟩
  rw [he]
  decide

/-- Witness for C5 at the all-slots-200 byte pattern. -/
theorem c5_witness :
    ¬ configInBounds (rawConfigOf ⟨200, 200, 200, 200, 200⟩) ∧
      getSunriseConfig ⟨200, 200, 200, 200, 200⟩ = defaultConfig ∧
        configInBounds (getSunriseConfig ⟨200, 200, 200, 200, 200⟩) :=
  ⟨by decide, c5_invalid_load_defaults ⟨200, 200, 200, 200, 200⟩ (by decide)⟩

/-- C9 (confirmed): the two fetches in `updateBoardState` are independent —
after a connected sync, the memory slots and cached config depend only on
the config fetch outcome (saved when its response code is positive,
unchanged otherwise), and the clock depends only on the time fetch outcome
(set from the fetched `unixtime` when its code is positive, unchanged
otherwise); in particular the time fetch takes effect regardless of the
config fetch's outcome, and vice versa. -/
theorem c9_fetches_independent (cfgFetch timeFetch : FetchResult) (st : BoardState) :
    (updateBoardState true cfgFetch timeFetch st).mem =
        (if 0 < cfgFetch.code then
          saveSunriseConfig (decodedSunriseConfig cfgFetch.doc) st.mem
        else st.mem) ∧
      (updateBoardState true cfgFetch timeFetch st).config =
        (if 0 < cfgFetch.code then decodedSunriseConfig cfgFetch.doc else st.config) ∧
      (updateBoardState true cfgFetch timeFetch st).clockEpoch =
        (if 0 < timeFetch.code then
          jsonLookupInt timeFetch.doc ("unixtime") % 2 ^ 32
        else st.clockEpoch) := by
  by_cases h1 : 0 < cfgFetch.code <;> by_cases h2 : 0 < timeFetch.code <;>
    simp [updateBoardState, saveSunriseConfigState, setDateTimeFromUnixEpoch, h1, h2]

/-- C10 (confirmed): every record returned by `getSunriseConfig` has a
non-negative utcOffset (the slots are read as unsigned bytes, so a value
above 12 — in particular any byte 128..255 — fails the upper bound and
forces the default, whose offset is +1); moreover saving a record with a
spec-admitted negative offset in -12..-1 stores a byte of 128 or more, so
the subsequent load returns the default record. -/
theorem c10_loaded_offset_nonneg (m : RtcMemory) (c : SunriseConfig)
    (h1 : -12 ≤ c.utcOffset) (h2 : c.utcOffset < 0) :
    0 ≤ (getSunriseConfig m).utcOffset ∧
      128 ≤ c.utcOffset % 256 ∧
      getSunriseConfig (saveSunriseConfig c m) = defaultConfig := by
  refine ⟨?_, by omega, ?_⟩
  · rw [getSunriseConfig_eq]
    by_cases hb : configInBounds (rawConfigOf m)
    · rw [if_pos hb]
      simp only [rawConfigOf]
      omega
    · rw [if_neg hb]
      decide
  · have he := getSunriseConfig_eq (saveSunriseConfig c m)
    rw [if_neg ?hc] at he
    · exact he
    case hc =>
      simp only [configInBounds, rawConfigOf, saveSunriseConfig]
      omega

/-- Witness for C10 at offset -5 over an all-zero memory. -/
theorem c10_witness :
    -12 ≤ (-5 : Int) ∧ (-5 : Int) < 0 ∧
      (0 ≤ (getSunriseConfig ⟨0, 0, 0, 0, 0⟩).utcOffset ∧
        128 ≤ (-5 : Int) % 256 ∧
        getSunriseConfig (saveSunriseConfig ⟨7, 0, 60, 30, -5⟩ ⟨0, 0, 0, 0, 0⟩) =
          defaultConfig) :=
  ⟨by decide, by decide,
    c10_loaded_offset_nonneg ⟨0, 0, 0, 0, 0⟩ ⟨7, 0, 60, 30, -5⟩ (by decide) (by decide)⟩

/-- START_LED_2_AFTER_MINS * 60000: LED 2 starts 5 minutes after sequence
start (main.cpp lines 205, 491). -/
def led2OffsetMillis : Int := 5 * 60000

/-- START_LED_3_AFTER_MINS * 60000: LED 3 starts 10 minutes after sequence
start (main.cpp lines 206, 493). -/
def led3OffsetMillis : Int := 10 * 60000

/-- PWM_RESOLUTION = 12 bits (main.cpp line 211). -/
def pwmResolution : Nat := 12

/-- PWM_MAX_DUTY_CYCLE = pow(2, PWM_RESOLUTION) - 1 = 4095 (line 212). -/
def maxDutyCycle : Int := 2 ^ pwmResolution - 1

/-- The fixed shaping exponent 1.8 of `startSunrise` (main.cpp line 490). -/
noncomputable def rampExponent : ℝ := 1.8

/-- One channel's duty-cycle computation inside the ramp loop (main.cpp
lines 512-514 for the primary channel, whose offset is 0, and lines 520-522
and 527-529 for LEDs 2 and 3): the float expression
`(int)(pow((current - channelStart) / (duration - channelOffset), 1.8) * 4095)`
idealised over the reals, with the truncating int cast as `Int.floor` (the
operand is non-negative whenever the code evaluates it). -/
noncomputable def channelDuty (elapsedMillis offsetMillis durationMillis : Int) : Int :=
  Int.floor
    ((((elapsedMillis - offsetMillis : Int) : ℝ) /
        ((durationMillis - offsetMillis : Int) : ℝ)) ^ rampExponent *
      ((maxDutyCycle : Int) : ℝ))

/-- The last duty cycle written to each of the three PWM channels
(`ledcWrite` on PWM_CHANNEL_1..3). -/
structure LedOutputs where
  led1 : Int
  led2 : Int
  led3 : Int
deriving DecidableEq

/-- One iteration of the `while (1)` loop of `startSunrise` (main.cpp lines
496-535) at elapsed time `elapsedMillis = currentMillis - startMillis`:
`none` means the exit branch is taken (`elapsedMillis >= durationMillis`:
the keep-on delay runs, all channels are then written 0 and the loop
breaks); `some` gives the outputs after this iteration's `ledcWrite` calls.
LED 2 (resp. LED 3) is written only once `currentMillis >= led2StartMillis`
(resp. `led3StartMillis`), i.e. once elapsed reaches its start offset; the
divisions by the duration occur only in the `some` branch. -/
noncomputable def sunriseIter (durationMins elapsedMillis : Int)
    (out : LedOutputs) : Option LedOutputs :=
  let durationMillis := durationMins * 60000
  if durationMillis ≤ elapsedMillis then
    none
  else
    some
      { led1 := channelDuty elapsedMillis 0 durationMillis
        led2 :=
          if led2OffsetMillis ≤ elapsedMillis then
            channelDuty elapsedMillis led2OffsetMillis durationMillis
          else out.led2
        led3 :=
          if led3OffsetMillis ≤ elapsedMillis then
            channelDuty elapsedMillis led3OffsetMillis durationMillis
          else out.led3 }

/-- The ramp loop run over the sequence of elapsed times at which the loop
body samples `millis()`: the loop breaks at the first sample reaching the
duration, leaving the outputs at their last written values. -/
noncomputable def runSunrise (durationMins : Int) :
    List Int → LedOutputs → LedOutputs
  | [], out => out
  | e :: rest, out =>
    match sunriseIter durationMins e out with
    | none => out
    | some out2 => runSunrise durationMins rest out2

/-- Observable outcome of one `startSunrise` call: the outputs held during
the keep-on delay (main.cpp line 504) and the final outputs after it
(lines 505-507 write 0 to all three channels). -/
structure SunriseTrace where
  holdOutputs : LedOutputs
  finalOutputs : LedOutputs
deriving DecidableEq

/-- `startSunrise(durationMins, keepOnForMins)` (main.cpp lines 486-536) as
a function of the sampled elapsed times; `keepOnForMins` only fixes the
length of the hold delay (real time is not modelled) and never affects
which duty cycles are written. -/
noncomputable def startSunrise (durationMins _keepOnForMins : Int)
    (samples : List Int) (init : LedOutputs) : SunriseTrace :=
  { holdOutputs := runSunrise durationMins samples init
    finalOutputs := ⟨0, 0, 0⟩ }

/-- Any iteration whose elapsed time has reached the total duration takes
the exit branch: nothing is written and the divisions are not evaluated. -/
theorem sunriseIter_exit (durationMins e : Int) (out : LedOutputs)
    (h : durationMins * 60000 ≤ e) : sunriseIter durationMins e out = none := by
  simp only [sunriseIter]
  rw [if_pos h]

/-- A channel's duty cycle at the instant its offset elapses is 0. -/
theorem channelDuty_at_offset (off d : Int) : channelDuty off off d = 0 := by
  simp only [channelDuty, sub_self, Int.cast_zero, zero_div]
  rw [Real.zero_rpow (by norm_num [rampExponent]), zero_mul]
  exact Int.floor_zero

/-- The duty cycle is monotone non-decreasing in elapsed time. -/
theorem channelDuty_mono (e1 e2 off d : Int) (h1 : off ≤ e1) (h12 : e1 ≤ e2)
    (hd : off < d) : channelDuty e1 off d ≤ channelDuty e2 off d := by
  unfold channelDuty
  have hdpos : (0 : ℝ) < ((d - off : Int) : ℝ) := by
    exact_mod_cast sub_pos.mpr hd
  apply Int.floor_le_floor
  apply mul_le_mul_of_nonneg_right
  · apply Real.rpow_le_rpow
    · exact div_nonneg (by exact_mod_cast sub_nonneg.mpr h1) hdpos.le
    · exact (div_le_div_iff_of_pos_right hdpos).mpr
        (by exact_mod_cast sub_le_sub_right h12 off)
    · norm_num [rampExponent]
  · norm_num [maxDutyCycle, pwmResolution]

/-- Strictly before the duration elapses, the duty cycle stays strictly
below `maxDutyCycle` (the shaped progress is below 1). -/
theorem channelDuty_lt_max (e off d : Int) (h1 : off ≤ e) (h2 : e < d) :
    channelDuty e off d < maxDutyCycle := by
  unfold channelDuty
  rw [Int.floor_lt]
  have hdpos : (0 : ℝ) < ((d - off : Int) : ℝ) := by
    exact_mod_cast sub_pos.mpr (lt_of_le_of_lt h1 h2)
  have ha0 : (0 : ℝ) ≤ ((e - off : Int) : ℝ) / ((d - off : Int) : ℝ) :=
    div_nonneg (by exact_mod_cast sub_nonneg.mpr h1) hdpos.le
  have ha1 : ((e - off : Int) : ℝ) / ((d - off : Int) : ℝ) < 1 := by
    rw [div_lt_one hdpos]
    exact_mod_cast sub_lt_sub_right h2 off
  have hpow : (((e - off : Int) : ℝ) / ((d - off : Int) : ℝ)) ^ rampExponent < 1 :=
    Real.rpow_lt_one ha0 ha1 (by norm_num [rampExponent])
  have hmax : (0 : ℝ) < ((maxDutyCycle : Int) : ℝ) := by
    norm_num [maxDutyCycle, pwmResolution]
  calc (((e - off : Int) : ℝ) / ((d - off : Int) : ℝ)) ^ rampExponent *
      ((maxDutyCycle : Int) : ℝ) < 1 * ((maxDutyCycle : Int) : ℝ) :=
        mul_lt_mul_of_pos_right hpow hmax
    _ = ((maxDutyCycle : Int) : ℝ) := one_mul _

/-- When the total ramp duration does not exceed LED 2's start offset, no
loop iteration ever writes LED 2: its output is frozen at its initial
value for the whole ramp phase, over every sampling sequence. -/
theorem runSunrise_led2_frozen (durationMins : Int)
    (hoff : durationMins * 60000 ≤ led2OffsetMillis) :
    ∀ (samples : List Int) (out : LedOutputs),
      (runSunrise durationMins samples out).led2 = out.led2 := by
  intro samples
  induction samples with
  | nil => intro out; rfl
  | cons e rest ih =>
    intro out
    rw [runSunrise]
    by_cases hd : durationMins * 60000 ≤ e
    · rw [sunriseIter_exit _ _ _ hd]
    · have he2 : ¬ (led2OffsetMillis ≤ e) := by
        simp only [led2OffsetMillis] at hoff ⊢
        omega
      simp only [sunriseIter, if_neg hd, if_neg he2]
      rw [ih]

/-- Same freezing property for LED 3 against its own 10-minute offset. -/
theorem runSunrise_led3_frozen (durationMins : Int)
    (hoff : durationMins * 60000 ≤ led3OffsetMillis) :
    ∀ (samples : List Int) (out : LedOutputs),
      (runSunrise durationMins samples out).led3 = out.led3 := by
  intro samples
  induction samples with
  | nil => intro out; rfl
  | cons e rest ih =>
    intro out
    rw [runSunrise]
    by_cases hd : durationMins * 60000 ≤ e
    · rw [sunriseIter_exit _ _ _ hd]
    · have he3 : ¬ (led3OffsetMillis ≤ e) := by
        simp only [led3OffsetMillis] at hoff ⊢
        omega
      simp only [sunriseIter, if_neg hd, if_neg he3]
      rw [ih]

/-- C6, counterexample: with `durationMins = 0` the engine does NOT
transition to full brightness — the hold-phase outputs are the untouched
initial (off) outputs, all 0, not `maxDutyCycle`. -/
theorem c6_counterexample :
    (startSunrise 0 0 [0] ⟨0, 0, 0⟩).holdOutputs = (⟨0, 0, 0⟩ : LedOutputs) ∧
      (0 : Int) ≠ maxDutyCycle := by
  constructor
  · show runSunrise 0 [0] ⟨0, 0, 0⟩ = ⟨0, 0, 0⟩
    rw [runSunrise, sunriseIter_exit 0 0 ⟨0, 0, 0⟩ (by decide)]
  · decide

/-- C6 (amended): when `startSunrise` is called with `durationMins = 0`,
every loop iteration (elapsed time is always non-negative) takes the exit
branch at once, so the divisions by the duration — which occur only in the
ramp branch — are never evaluated and no division by zero happens; the
engine transitions directly to the Holding phase with the channel outputs
left at their initial (off) values — it does not jump to full brightness —
and writes 0 to every channel when the hold ends. -/
theorem c6_zero_duration (e keepOnForMins : Int) (rest : List Int)
    (out : LedOutputs) (he : 0 ≤ e) :
    sunriseIter 0 e out = none ∧
      (startSunrise 0 keepOnForMins (e :: rest) out).holdOutputs = out ∧
      (startSunrise 0 keepOnForMins (e :: rest) out).finalOutputs = ⟨0, 0, 0⟩ := by
  have hiter : sunriseIter 0 e out = none := sunriseIter_exit 0 e out (by omega)
  refine ⟨hiter, ?_, rfl⟩
  show runSunrise 0 (e :: rest) out = out
  rw [runSunrise, hiter]

/-- Witness for the amended C6 at the first loop iteration (elapsed 0). -/
theorem c6_witness :
    0 ≤ (0 : Int) ∧
      (sunriseIter 0 0 ⟨0, 0, 0⟩ = none ∧
        (startSunrise 0 30 [0] ⟨0, 0, 0⟩).holdOutputs = ⟨0, 0, 0⟩ ∧
        (startSunrise 0 30 [0] ⟨0, 0, 0⟩).finalOutputs = ⟨0, 0, 0⟩) :=
  ⟨by decide, c6_zero_duration 0 30 [] ⟨0, 0, 0⟩ (by decide)⟩

/-- C7, counterexample: with a 4-minute ramp (less than LED 2's 5-minute
offset) and samples at elapsed 0 ms and 240000 ms, LED 2's output at the
transition into Holding is 0, not `maxDutyCycle`: the code never pins an
inactive channel to full duty cycle. -/
theorem c7_counterexample :
    (startSunrise 4 0 [0, 240000] ⟨0, 0, 0⟩).holdOutputs.led2 = 0 ∧
      (0 : Int) ≠ maxDutyCycle := by
  refine ⟨runSunrise_led2_frozen 4 (by decide) [0, 240000] ⟨0, 0, 0⟩, by decide⟩

/-- C7 (amended): a channel whose start offset is at least the total ramp
duration is never written during the Ramping phase, over every sampling
sequence, so its output stays at its initial (off) value — 0 when the
channel starts off — throughout Ramping; at the transition into Holding it
is NOT set to full duty cycle: it keeps that untouched value through the
hold and is written 0 when the sequence ends.  Covers every gated-channel
instance of the claim: LED 3 with its 10-minute offset whenever
`durationMins` is at most 10 (the theorem's hypothesis), and LED 2 with
its 5-minute offset whenever `durationMins` is at most 5 (the inner
guard). -/
theorem c7_offset_channel (durationMins keepOnForMins : Int) (samples : List Int)
    (init : LedOutputs) (hoff3 : durationMins * 60000 ≤ led3OffsetMillis) :
    (startSunrise durationMins keepOnForMins samples init).holdOutputs.led3 =
        init.led3 ∧
      (startSunrise durationMins keepOnForMins samples init).finalOutputs.led3 = 0 ∧
      (durationMins * 60000 ≤ led2OffsetMillis →
        (startSunrise durationMins keepOnForMins samples init).holdOutputs.led2 =
            init.led2 ∧
          (startSunrise durationMins keepOnForMins samples init).finalOutputs.led2 =
            0) :=
  ⟨runSunrise_led3_frozen _ hoff3 _ _, rfl,
    fun hoff2 => ⟨runSunrise_led2_frozen _ hoff2 _ _, rfl⟩⟩

/-- Witness for the amended C7, at an 8-minute ramp (LED 3's 10-minute
offset exceeds the duration while LED 2's does not): LED 3 stays at 0
through ramp and hold and is written 0 at the end; and at a 4-minute ramp
the LED 2 part holds as well. -/
theorem c7_witness :
    (8 : Int) * 60000 ≤ led3OffsetMillis ∧
      ((startSunrise 8 0 [0, 300000, 480000] ⟨0, 0, 0⟩).holdOutputs.led3 = 0 ∧
        (startSunrise 8 0 [0, 300000, 480000] ⟨0, 0, 0⟩).finalOutputs.led3 = 0) ∧
      (4 : Int) * 60000 ≤ led2OffsetMillis ∧
      ((startSunrise 4 0 [0, 120000, 240000] ⟨0, 0, 0⟩).holdOutputs.led2 = 0 ∧
        (startSunrise 4 0 [0, 120000, 240000] ⟨0, 0, 0⟩).finalOutputs.led2 = 0) := by
  have h8 := c7_offset_channel 8 0 [0, 300000, 480000] ⟨0, 0, 0⟩ (by decide)
  have h4 := c7_offset_channel 4 0 [0, 120000, 240000] ⟨0, 0, 0⟩ (by decide)
  exact ⟨by decide, ⟨h8.1, h8.2.1⟩, by decide, h4.2.2 (by decide)⟩

/-- C8, counterexample: at elapsed time equal to the full ramp duration
(60 minutes) the loop takes the exit branch and writes no duty cycle at all
— so no write of `maxDutyCycle` happens there — and even the latest
possible ramp write (one millisecond earlier) is strictly below
`maxDutyCycle`. -/
theorem c8_counterexample :
    sunriseIter 60 (60 * 60000) ⟨0, 0, 0⟩ = none ∧
      channelDuty (60 * 60000 - 1) 0 (60 * 60000) < maxDutyCycle :=
  ⟨sunriseIter_exit _ _ _ le_rfl,
    channelDuty_lt_max _ _ _ (by norm_num) (by norm_num)⟩

/-- C8 (amended): for the primary channel with a positive ramp duration,
the duty cycle written at elapsed time 0 is 0, and the written duty cycles
are monotonically non-decreasing in elapsed time; but the value
`maxDutyCycle` is never written: every ramp-phase write (elapsed strictly
below the duration) is strictly below `maxDutyCycle`, and at elapsed time
equal to the full ramp duration the loop exits without writing. -/
theorem c8_primary_ramp (durationMins e1 e2 : Int) (out : LedOutputs)
    (hdm : 0 < durationMins) (h0 : 0 ≤ e1) (h12 : e1 ≤ e2)
    (h2 : e2 < durationMins * 60000) :
    channelDuty 0 0 (durationMins * 60000) = 0 ∧
      channelDuty e1 0 (durationMins * 60000) ≤
        channelDuty e2 0 (durationMins * 60000) ∧
      channelDuty e2 0 (durationMins * 60000) < maxDutyCycle ∧
      sunriseIter durationMins (durationMins * 60000) out = none := by
  refine ⟨channelDuty_at_offset 0 _, ?_, ?_, sunriseIter_exit _ _ _ le_rfl⟩
  · exact channelDuty_mono e1 e2 0 _ h0 h12 (by omega)
  · exact channelDuty_lt_max e2 0 _ (le_trans h0 h12) h2

/-- Witness for the amended C8 with the spec's 60-minute ramp at two
sample instants. -/
theorem c8_witness :
    0 < (60 : Int) ∧ 0 ≤ (1000 : Int) ∧ (1000 : Int) ≤ 2000 ∧
      (2000 : Int) < 60 * 60000 ∧
      (channelDuty 0 0 (60 * 60000) = 0 ∧
        channelDuty 1000 0 (60 * 60000) ≤ channelDuty 2000 0 (60 * 60000) ∧
        channelDuty 2000 0 (60 * 60000) < maxDutyCycle ∧
        sunriseIter 60 (60 * 60000) ⟨0, 0, 0⟩ = none) :=
  ⟨by decide, by decide, by decide, by decide,
    c8_primary_ramp 60 1000 2000 ⟨0, 0, 0⟩ (by decide) (by decide) (by decide)
      (by decide)⟩

end WakeUpLight
